/-
  Verification of the indexing-quality-assurance scoring/decision core.

  Shallow embedding of:
  * backend/app/services/rules_engine.py   (RulesEngine: the 11 quality checks)
  * backend/app/services/dynamic_rules_manager.py  (DynamicRulesManager / ConfigStore)
  * backend/app/api/api.py                 (evaluate_llm_invocation_decision)

  Numeric values are modelled as rationals.  Library calls that the source
  delegates to external packages (sklearn TF-IDF cosine similarities, the
  `re` regex engine for the spam signatures, md5 hashing) are modelled as
  oracle parameters; everything else is translated directly from the Python
  source.
-/
import Mathlib

/-! ## Basic text processing (rules_engine.py helpers) -/

/-- ASCII model of Python's `\w` character class (used by `re.findall(r'\b\w+\b', ...)`
and `re.sub(r'[^\w\s]', ...)`). -/
def isWordChar (ch : Char) : Bool := ch.isAlphanum || ch = '_'

/-- Python's `\s` class and `str.strip()` whitespace: space, tab, newline,
carriage return, vertical tab, form feed. -/
def isSpaceChar (ch : Char) : Bool :=
  ch = ' ' || ch = '\t' || ch = '\n' || ch = '\r' || ch = '\x0b' || ch = '\x0c'

/-- One step of maximal-run splitting (foldr step): prepend the character to the
current run when it satisfies `p`, otherwise close the current run. -/
def runStep (p : Char → Bool) (c : Char) (acc : List (List Char)) : List (List Char) :=
  match acc with
  | cur :: rest => if p c then (c :: cur) :: rest else [] :: (cur :: rest)
  | [] => if p c then [[c]] else [[]]

/-- Maximal runs of characters satisfying `p` (empty runs discarded). -/
def charRuns (p : Char → Bool) (l : List Char) : List (List Char) :=
  (l.foldr (runStep p) [[]]).filter (fun r => !r.isEmpty)

/-- `re.findall(r'\b\w+\b', s)`: the maximal word-character runs of `s`. -/
def findWords (s : String) : List String :=
  (charRuns isWordChar s.toList).map (fun cs => String.mk cs)

/-- Python `str.split()` with no arguments: maximal non-whitespace runs. -/
def pySplitWS (s : String) : List String :=
  (charRuns (fun c => !isSpaceChar c) s.toList).map (fun cs => String.mk cs)

/-- Python `str.strip()`. -/
def pyStrip (s : String) : String :=
  String.mk (((s.toList.dropWhile isSpaceChar).reverse.dropWhile isSpaceChar).reverse)

/-- Python `str.lower()` (ASCII). -/
def pyLower (s : String) : String := String.mk (s.toList.map Char.toLower)

/-- Whether the character list `p` occurs at the head of `s`. -/
def leadMatch : List Char → List Char → Bool
  | [], _ => true
  | _ :: _, [] => false
  | a :: p, b :: s => a = b && leadMatch p s

/-- Whether `p` occurs as a contiguous run inside `s` (Python `p in s` on strings). -/
def containsRun (p : List Char) : List Char → Bool
  | [] => leadMatch p []
  | c :: s => leadMatch p (c :: s) || containsRun p s

/-- Python `sub in s` for strings. -/
def pyInStr (sub s : String) : Bool := containsRun sub.toList s.toList

/-- `RulesEngine._preprocess_text`: lowercase, replace `[^\w\s]` by a space,
collapse whitespace runs to single spaces, strip.  The collapse-and-strip steps
are realised by joining the non-whitespace runs with single spaces. -/
def preprocess_text (text : String) : String :=
  if text = "" then ""
  else
    let lowered := pyLower text
    let spaced := String.mk (lowered.toList.map
      (fun c => if isWordChar c || isSpaceChar c then c else ' '))
    String.intercalate " " (pySplitWS spaced)

/-- The normalisation step of `RulesEngine._hash_content`:
`re.sub(r'\s+', ' ', text.strip().lower())` followed by removal of `[^\w\s]`. -/
def normalize_for_hash (text : String) : String :=
  let collapsed := String.intercalate " " (pySplitWS (pyLower (pyStrip text)))
  String.mk (collapsed.toList.filter (fun c => isWordChar c || isSpaceChar c))

/-! ## Data model (models.py / rules_engine.py) -/

/-- `FlagStatus` from models.py. -/
inductive FlagStatus where
  | pass
  | fail
  | warning
  | pending_review
  | manual_override
deriving DecidableEq

/-- `QualityCheckResult` from models.py, restricted to the fields the claims
are about.  `metadata_score` models the check's headline numeric entry in
`check_metadata` (e.g. the `semantic_score` key of the semantic-relevance
check); purely descriptive string fields are omitted. -/
structure QualityCheckResult where
  check_name : String
  status : FlagStatus
  confidence_score : ℚ
  metadata_score : Option ℚ := none
deriving DecidableEq

/-- `ChunkIngestRequest`, restricted to the fields the rules engine reads. -/
structure Chunk where
  document_text : String
  tags : List String
  source_connector : String
deriving DecidableEq

/-- `RulesEngine.generic_stopwords` (set literal, verbatim; Python set
membership corresponds to list membership). -/
def generic_stopwords : List String :=
  ["document", "file", "content", "text", "information", "data",
   "report", "summary", "overview", "details", "description",
   "general", "misc", "miscellaneous", "other", "various",
   "company", "business", "corporate", "organization",
   "important", "urgent", "critical", "high", "low", "medium",
   "new", "old", "recent", "current", "updated", "latest",
   "final", "draft", "version", "revision", "edit",
   "meeting", "call", "discussion", "conversation",
   "email", "message", "communication", "note", "memo",
   "project", "task", "work", "job", "assignment",
   "process", "procedure", "method", "approach",
   "team", "group", "department", "division",
   "customer", "client", "user", "person", "people",
   "product", "service", "solution", "system",
   "policy", "guideline", "rule", "requirement",
   "review", "analysis", "evaluation", "assessment",
   "planning", "strategy", "goal", "objective",
   "training", "education", "learning", "knowledge",
   "support", "help", "assistance", "guidance",
   "management", "admin", "administration", "operational",
   "technical", "functional",
   "and", "or", "but", "the", "a", "an", "is", "are", "was", "were",
   "for", "with", "about", "from", "into", "through", "during",
   "before", "after", "above", "below", "up", "down", "out", "off",
   "over", "under", "again", "further", "then", "once"]

/-- `RulesEngine.domain_stopwords`. -/
def domain_stopwords : List String :=
  ["api", "database", "server", "client", "application", "software",
   "hardware", "network", "security", "backup", "maintenance",
   "employee", "staff", "personnel", "human resources", "hr",
   "benefits", "payroll", "performance", "evaluation",
   "compliance", "regulation", "legal", "contract", "agreement",
   "terms", "conditions", "privacy", "confidential"]

/-- `RulesEngine.all_stopwords = generic_stopwords | domain_stopwords`. -/
def all_stopwords : List String := generic_stopwords ++ domain_stopwords

/-- `RulesEngine.domain_knowledge`: the `terms` lists of the three domains,
in dict insertion order (the `lemmas` lists are never consulted by the
checks under verification). -/
def domain_knowledge : List (String × List String) :=
  [("technology",
    ["api", "database", "server", "client", "application", "software",
     "hardware", "network", "security", "backup", "maintenance"]),
   ("human_resources",
    ["employee", "staff", "personnel", "human resources", "hr",
     "benefits", "payroll", "performance", "evaluation"]),
   ("legal",
    ["compliance", "regulation", "legal", "contract", "agreement",
     "terms", "conditions", "privacy", "confidential"])]

/-- The dynamic threshold values that `RulesEngine._get_dynamic_threshold`
resolves at evaluation time, one field per threshold name used by the
checks.  `spam_threshold` is fetched by `_check_spam_patterns` but never
used in its branch conditions, exactly as in the source. -/
structure Thresholds where
  min_tag_count : ℚ := 1
  max_tag_count : ℚ := 20
  min_text_length : ℚ := 50
  max_text_length : ℚ := 10000
  min_meaningful_words : ℚ := 5
  stopword_threshold : ℚ := 1/2
  spam_threshold : ℚ := 3/10
  max_duplicate_content_per_hour : ℚ := 5
  tag_text_relevance_threshold : ℚ := 3/10
  semantic_relevance_threshold : ℚ := 3/20
  domain_relevance_threshold : ℚ := 1/10
  tag_specificity_threshold : ℚ := 1/2
  context_coherence_threshold : ℚ := 1/10
deriving DecidableEq

/-- Results of the `re` / sklearn library calls that the rules engine
delegates to, supplied as an oracle:
* `spam_match_count` — number of matches of the compiled spam regexes on the
  lowercased document text;
* `semantic_sims` — cosine similarities between the TF-IDF vector of the
  preprocessed document text and each preprocessed tag; `none` models the
  `except` path (sklearn raised, e.g. empty vocabulary);
* `coherence_sims` — pairwise cosine similarities `similarities[i][j]` for
  `i < j` over the valid tags; `none` models the `except` path. -/
structure EngineOracle where
  spam_match_count : Nat
  semantic_sims : Option (List ℚ)
  coherence_sims : Option (List ℚ)

/-- The duplicate-content hash store `RulesEngine.content_hashes`:
hash value to the list of `(timestamp, source_connector)` entries.
Timestamps are measured in hours so the 24-hour retention window is the
constant `24`. -/
def DupStore : Type := List (String × List (ℚ × String))

/-! ## The 11 quality checks (rules_engine.py) -/

/-- `RulesEngine._check_empty_tags`. -/
def check_empty_tags (c : Chunk) : QualityCheckResult :=
  if c.tags = [] then
    { check_name := "empty_tags", status := .fail, confidence_score := 0 }
  else
    let empty_tags := c.tags.filter (fun tag => pyStrip tag = "")
    if empty_tags ≠ [] then
      { check_name := "empty_tags", status := .fail, confidence_score := 1/5 }
    else
      { check_name := "empty_tags", status := .pass, confidence_score := 1 }

/-- `RulesEngine._check_tag_count`. -/
def check_tag_count (T : Thresholds) (c : Chunk) : QualityCheckResult :=
  let tag_count : ℚ := c.tags.length
  if tag_count < T.min_tag_count then
    { check_name := "tag_count_validation", status := .fail, confidence_score := 3/10 }
  else if T.max_tag_count < tag_count then
    { check_name := "tag_count_validation", status := .fail, confidence_score := 3/5 }
  else
    { check_name := "tag_count_validation", status := .pass, confidence_score := 1 }

/-- `RulesEngine._check_text_quality`. -/
def check_text_quality (T : Thresholds) (c : Chunk) : QualityCheckResult :=
  let text := pyStrip c.document_text
  let text_length : ℚ := text.length
  if text_length < T.min_text_length then
    { check_name := "text_quality", status := .fail, confidence_score := 1/10 }
  else if T.max_text_length < text_length then
    { check_name := "text_quality", status := .fail, confidence_score := 7/10 }
  else
    let words := findWords (pyLower text)
    let meaningful_words := words.filter
      (fun w => 2 < w.length && !(w.toList.all Char.isDigit))
    if (meaningful_words.length : ℚ) < T.min_meaningful_words then
      { check_name := "text_quality", status := .fail, confidence_score := 2/5 }
    else
      { check_name := "text_quality", status := .pass, confidence_score := 1 }

/-- The per-tag predicate of `RulesEngine._check_generic_stopwords`: an exact
stopword, or a multi-word tag more than 60% of whose words are stopwords. -/
def isStopwordMatch (tag : String) : Bool :=
  if tag ∈ all_stopwords then true
  else if tag.toList.contains ' ' then
    let tag_words := pySplitWS tag
    let stopword_count := tag_words.countP (fun w => w ∈ all_stopwords)
    decide ((3/5 : ℚ) < (stopword_count : ℚ) / (tag_words.length : ℚ))
  else false

/-- `RulesEngine._check_generic_stopwords`. -/
def check_generic_stopwords (T : Thresholds) (c : Chunk) : QualityCheckResult :=
  if c.tags = [] then
    { check_name := "stopwords_detection", status := .pass, confidence_score := 1 }
  else
    let normalized_tags := c.tags.map (fun tag => pyStrip (pyLower tag))
    let stopword_matches := normalized_tags.filter isStopwordMatch
    let stopwordFrac : ℚ := (stopword_matches.length : ℚ) / (c.tags.length : ℚ)
    if T.stopword_threshold < stopwordFrac then
      { check_name := "stopwords_detection", status := .fail,
        confidence_score := max (1/5) (1 - stopwordFrac) }
    else
      { check_name := "stopwords_detection", status := .pass,
        confidence_score := 1 - stopwordFrac }

/-- `RulesEngine._check_spam_patterns`.  The count of regex matches against the
compiled spam signatures comes from the oracle; the word-repetition branch is
computed directly. -/
def check_spam_patterns (oracle : EngineOracle) (c : Chunk) : QualityCheckResult :=
  let text := pyLower c.document_text
  if 0 < oracle.spam_match_count then
    { check_name := "spam_patterns", status := .fail,
      confidence_score := max (1/10) (1 - (oracle.spam_match_count : ℚ) * (3/10)) }
  else
    let words := pySplitWS text
    let max_freq : Nat := (words.map (fun w => words.count w)).foldl max 0
    let repetitionFrac : ℚ := (max_freq : ℚ) / (words.length : ℚ)
    if 10 < words.length ∧ (3/10 : ℚ) < repetitionFrac then
      { check_name := "spam_patterns", status := .fail,
        confidence_score := max (3/10) (1 - repetitionFrac) }
    else
      { check_name := "spam_patterns", status := .pass, confidence_score := 1 }

/-- `RulesEngine._hash_content`: md5 of the normalised text.  The md5 digest
itself is a library call, supplied as the parameter `md5hex`. -/
def hash_content (md5hex : String → String) (text : String) : String :=
  md5hex (normalize_for_hash text)

/-- The hash-eviction step of `RulesEngine._check_duplicate_content`: drop
entries at or before the cutoff, and drop hash keys whose entry list became
empty. -/
def cleanDupStore (store : DupStore) (cutoff : ℚ) : DupStore :=
  (store.map (fun e => (e.1, e.2.filter (fun ts => cutoff < ts.1)))).filter
    (fun e => e.2 ≠ [])

/-- Append an entry for `h` in the store (defaultdict semantics: a fresh key
gets a singleton list). -/
def dupStoreAppend (store : DupStore) (h : String) (entry : ℚ × String) : DupStore :=
  match store with
  | [] => [(h, [entry])]
  | e :: rest =>
    if e.1 = h then (e.1, e.2 ++ [entry]) :: rest
    else e :: dupStoreAppend rest h entry

/-- `RulesEngine._check_duplicate_content`.  Returns the check result together
with the updated hash store; `now` is the current time in hours and the
retention window is `hash_retention_hours = 24`. -/
def check_duplicate_content (md5hex : String → String) (T : Thresholds)
    (store : DupStore) (now : ℚ) (c : Chunk) : QualityCheckResult × DupStore :=
  let content_hash := hash_content md5hex c.document_text
  let cutoff := now - 24
  let cleaned := cleanDupStore store cutoff
  match cleaned.find? (fun e => e.1 = content_hash) with
  | some e =>
    let recent_duplicates := e.2.length
    if T.max_duplicate_content_per_hour ≤ (recent_duplicates : ℚ) then
      ({ check_name := "duplicate_content_detection", status := .fail,
         confidence_score := 1/10 }, cleaned)
    else
      ({ check_name := "duplicate_content_detection", status := .pass,
         confidence_score := 1 },
       dupStoreAppend cleaned content_hash (now, c.source_connector))
  | none =>
    ({ check_name := "duplicate_content_detection", status := .pass,
       confidence_score := 1 },
     dupStoreAppend cleaned content_hash (now, c.source_connector))

/-- Per-tag contribution in `RulesEngine._check_tag_text_relevance`: 1 for a
token intersection with the text, 0.5 for a substring match of a token longer
than three characters, 0 otherwise. -/
def tagRelevanceCredit (text_lower : String) (text_words : List String)
    (tag : String) : ℚ :=
  let tag_words := findWords (pyLower tag)
  if tag_words.any (fun w => text_words.contains w) then 1
  else if tag_words.any (fun w => 3 < w.length && pyInStr w text_lower) then 1/2
  else 0

/-- `RulesEngine._check_tag_text_relevance`. -/
def check_tag_text_relevance (T : Thresholds) (c : Chunk) : QualityCheckResult :=
  if c.tags = [] then
    { check_name := "tag_text_relevance", status := .pass, confidence_score := 1 }
  else
    let text_lower := pyLower c.document_text
    let text_words := findWords text_lower
    let relevant_tags : ℚ :=
      (c.tags.map (tagRelevanceCredit text_lower text_words)).sum
    let relevance_score : ℚ := relevant_tags / (c.tags.length : ℚ)
    if relevance_score < T.tag_text_relevance_threshold then
      { check_name := "tag_text_relevance", status := .fail,
        confidence_score := relevance_score }
    else
      { check_name := "tag_text_relevance", status := .pass,
        confidence_score := relevance_score }

/-- `np.mean` over a rational list (`sum / length`; the checks only apply it
to the non-degenerate case, where its Python meaning coincides). -/
def qmean (l : List ℚ) : ℚ := l.sum / (l.length : ℚ)

/-- `np.max` over a list of cosine similarities.  Cosine similarities of
non-negative TF-IDF vectors are non-negative, so folding `max` from 0 agrees
with `np.max` on the oracle values allowed by the well-formedness
hypotheses. -/
def qmax (l : List ℚ) : ℚ := l.foldl max 0

/-- `RulesEngine._check_semantic_relevance`.  The TF-IDF/cosine computation is
the `semantic_sims` oracle; `none` models the `except Exception` branch. -/
def check_semantic_relevance (T : Thresholds) (oracle : EngineOracle)
    (c : Chunk) : QualityCheckResult :=
  if c.tags = [] then
    { check_name := "semantic_relevance", status := .pass, confidence_score := 1,
      metadata_score := some 0 }
  else
    let text := preprocess_text c.document_text
    let tag_texts := c.tags.map preprocess_text
    if pyStrip text = "" ∨ ¬ tag_texts.any (fun t => pyStrip t ≠ "") then
      { check_name := "semantic_relevance", status := .fail,
        confidence_score := 1/10, metadata_score := some 0 }
    else
      match oracle.semantic_sims with
      | none =>
        { check_name := "semantic_relevance", status := .fail,
          confidence_score := 3/10, metadata_score := none }
      | some sims =>
        let avg_similarity := qmean sims
        let max_similarity := qmax sims
        let semantic_score := avg_similarity * (6/10) + max_similarity * (4/10)
        if semantic_score < T.semantic_relevance_threshold then
          { check_name := "semantic_relevance", status := .fail,
            confidence_score := semantic_score, metadata_score := some semantic_score }
        else
          { check_name := "semantic_relevance", status := .pass,
            confidence_score := semantic_score, metadata_score := some semantic_score }

/-- Whether a tag matches some domain of the knowledge base (substring match
of a domain term inside the lowercased tag, first domain wins — the `break`). -/
def tagMatchesDomain (tag : String) : Bool :=
  let tag_lower := pyLower tag
  domain_knowledge.any (fun d => d.2.any (fun term => pyInStr term tag_lower))

/-- `RulesEngine._check_domain_relevance`.  The text-side `domain_scores` map
is computed in the source but only stored as metadata; the pass/fail logic
depends solely on the per-tag domain matches. -/
def check_domain_relevance (T : Thresholds) (c : Chunk) : QualityCheckResult :=
  if c.tags = [] then
    { check_name := "domain_relevance", status := .pass, confidence_score := 1 }
  else
    let tag_domain_matches := c.tags.countP tagMatchesDomain
    let domain_relevance_score : ℚ := (tag_domain_matches : ℚ) / (c.tags.length : ℚ)
    if domain_relevance_score < T.domain_relevance_threshold then
      { check_name := "domain_relevance", status := .fail,
        confidence_score := domain_relevance_score }
    else
      { check_name := "domain_relevance", status := .pass,
        confidence_score := domain_relevance_score }

/-- Per-tag specificity heuristic of `RulesEngine._check_tag_specificity`. -/
def tagSpecificityScore (tag : String) : ℚ :=
  let tag_lower := pyStrip (pyLower tag)
  if tag_lower ∈ all_stopwords then 0
  else if 1 < (pySplitWS tag_lower).length then 8/10
  else if domain_knowledge.any (fun d => tag_lower ∈ d.2) then 7/10
  else if 8 < tag_lower.length then 6/10
  else if 5 < tag_lower.length then 1/2
  else 3/10

/-- `RulesEngine._check_tag_specificity`. -/
def check_tag_specificity (T : Thresholds) (c : Chunk) : QualityCheckResult :=
  if c.tags = [] then
    { check_name := "tag_specificity", status := .pass, confidence_score := 1 }
  else
    let specificity_scores := c.tags.map tagSpecificityScore
    let avg_specificity := qmean specificity_scores
    if avg_specificity < T.tag_specificity_threshold then
      { check_name := "tag_specificity", status := .fail,
        confidence_score := avg_specificity }
    else
      { check_name := "tag_specificity", status := .pass,
        confidence_score := avg_specificity }

/-- `RulesEngine._check_context_coherence`.  The pairwise TF-IDF similarities
are the `coherence_sims` oracle; `none` models the `except Exception`
branch. -/
def check_context_coherence (T : Thresholds) (oracle : EngineOracle)
    (c : Chunk) : QualityCheckResult :=
  if c.tags.length < 2 then
    { check_name := "context_coherence", status := .pass, confidence_score := 1,
      metadata_score := some 1 }
  else
    let tag_texts := c.tags.map preprocess_text
    let valid_tags := ((c.tags.zip tag_texts).filter
      (fun p => pyStrip p.2 ≠ "")).map (fun p => p.1)
    if valid_tags.length < 2 then
      { check_name := "context_coherence", status := .pass, confidence_score := 1,
        metadata_score := some 1 }
    else
      match oracle.coherence_sims with
      | none =>
        { check_name := "context_coherence", status := .fail,
          confidence_score := 3/10, metadata_score := none }
      | some coherence_scores =>
        let avg_coherence := if coherence_scores ≠ [] then qmean coherence_scores else 0
        if avg_coherence < T.context_coherence_threshold then
          { check_name := "context_coherence", status := .fail,
            confidence_score := avg_coherence, metadata_score := some avg_coherence }
        else
          { check_name := "context_coherence", status := .pass,
            confidence_score := avg_coherence, metadata_score := some avg_coherence }

/-! ## RulesEngine orchestration (check_chunk) -/

/-- `RulesEngine.get_expected_check_names`. -/
def get_expected_check_names : List String :=
  ["empty_tags",
   "tag_count_validation",
   "text_quality",
   "stopwords_detection",
   "spam_patterns",
   "duplicate_content_detection",
   "tag_text_relevance",
   "semantic_relevance",
   "domain_relevance",
   "tag_specificity",
   "context_coherence"]

/-- The synthetic `rules_engine_consistency_check` result appended when the
count of results is not 11 (defensive path). -/
def rules_engine_consistency_result : QualityCheckResult :=
  { check_name := "rules_engine_consistency_check", status := .fail,
    confidence_score := 0 }

/-- The duplicate-removal pass at the end of `check_chunk`: keep the first
occurrence of each `check_name`. -/
def dedup_by_name : List QualityCheckResult → List String → List QualityCheckResult
  | [], _ => []
  | r :: rest, seen =>
    if r.check_name ∈ seen then dedup_by_name rest seen
    else r :: dedup_by_name rest (r.check_name :: seen)

/-- `RulesEngine.check_chunk`: run the 11 checks in the fixed order, apply the
count validation and the duplicate removal, and thread the duplicate-content
hash store. -/
def check_chunk (md5hex : String → String) (T : Thresholds)
    (oracle : EngineOracle) (store : DupStore) (now : ℚ) (c : Chunk) :
    List QualityCheckResult × DupStore :=
  let dup := check_duplicate_content md5hex T store now c
  let results : List QualityCheckResult :=
    [check_empty_tags c,
     check_tag_count T c,
     check_text_quality T c,
     check_generic_stopwords T c,
     check_spam_patterns oracle c,
     dup.1,
     check_tag_text_relevance T c,
     check_semantic_relevance T oracle c,
     check_domain_relevance T c,
     check_tag_specificity T c,
     check_context_coherence T oracle c]
  let results :=
    if results.length ≠ 11 then results ++ [rules_engine_consistency_result]
    else results
  (dedup_by_name results [], dup.2)

/-! ## DynamicRulesManager (dynamic_rules_manager.py) -/

/-- `RuleCategory`: the six members actually declared by the enum. -/
inductive RuleCategory where
  | content_quality
  | tag_validation
  | semantic_analysis
  | spam_detection
  | duplicate_detection
  | domain_specific
deriving DecidableEq

/-- `RuleSeverity`. -/
inductive RuleSeverity where
  | critical
  | high
  | medium
  | low
deriving DecidableEq

/-- Python attribute lookup `RuleCategory.<NAME>`: resolves the declared
members and raises `AttributeError` on anything else. -/
def ruleCategoryAttr : String → Except String RuleCategory
  | "CONTENT_QUALITY" => .ok .content_quality
  | "TAG_VALIDATION" => .ok .tag_validation
  | "SEMANTIC_ANALYSIS" => .ok .semantic_analysis
  | "SPAM_DETECTION" => .ok .spam_detection
  | "DUPLICATE_DETECTION" => .ok .duplicate_detection
  | "DOMAIN_SPECIFIC" => .ok .domain_specific
  | s => .error ("AttributeError: type object RuleCategory has no attribute " ++ s)

/-- `RuleDefinition`, restricted to the fields the claims are about (the
purely descriptive display/description strings are omitted). -/
structure RuleDefinition where
  name : String
  category : RuleCategory
  severity : RuleSeverity
  weight : ℚ := 1
  enabled : Bool := true
  threshold_value : Option ℚ := none
deriving DecidableEq

/-- `QualityThreshold`, restricted to the fields the claims are about. -/
structure QualityThreshold where
  name : String
  current_value : ℚ
  default_value : ℚ
  min_value : ℚ
  max_value : ℚ
  affects_rules : List String
deriving DecidableEq

/-- A `changes_history` row (timestamps omitted). -/
structure ChangeRecord where
  change_type : String
  item_name : String
  field_name : String
  changed_by : String
  reason : String
deriving DecidableEq

/-- A subscriber notification `(change_type, item_name, old_value, new_value)`
emitted by `_notify_subscribers`. -/
structure NotifyEvent where
  change_type : String
  item_name : String
  old_value : ℚ
  new_value : ℚ
deriving DecidableEq

/-- The in-memory state of `DynamicRulesManager`: the `rules` and
`thresholds` dicts (keyed by `name`) and the append-only change history. -/
structure ConfigState where
  rules : List RuleDefinition
  thresholds : List QualityThreshold
  history : List ChangeRecord
deriving DecidableEq

/-- `DynamicRulesManager._create_default_rules`, with the rule weights
resolved through the Unified Config Service modelled by `gw` (`none` =
unavailable, fall back to the hardcoded default).  The seventh, eighth and
ninth rules reference `RuleCategory.SEMANTIC_VALIDATION`, which is not a
member of the enum, so evaluating the `default_rules` list raises. -/
def create_default_rules (gw : String → Option ℚ) :
    Except String (List RuleDefinition) := do
  let weight := fun (rule_name : String) (fallback : ℚ) =>
    (gw (rule_name ++ "_weight")).getD fallback
  let cat1 ← ruleCategoryAttr "TAG_VALIDATION"
  let cat2 ← ruleCategoryAttr "TAG_VALIDATION"
  let cat3 ← ruleCategoryAttr "CONTENT_QUALITY"
  let cat4 ← ruleCategoryAttr "TAG_VALIDATION"
  let cat5 ← ruleCategoryAttr "SPAM_DETECTION"
  let cat6 ← ruleCategoryAttr "DUPLICATE_DETECTION"
  let cat7 ← ruleCategoryAttr "SEMANTIC_VALIDATION"
  let cat8 ← ruleCategoryAttr "SEMANTIC_VALIDATION"
  let cat9 ← ruleCategoryAttr "SEMANTIC_VALIDATION"
  let cat10 ← ruleCategoryAttr "TAG_VALIDATION"
  let cat11 ← ruleCategoryAttr "CONTENT_QUALITY"
  return [
   { name := "empty_tags", category := cat1, severity := .high,
     weight := weight "empty_tags" 1, threshold_value := some 1 },
   { name := "tag_count_validation", category := cat2, severity := .medium,
     weight := weight "tag_count_validation" (8/10), threshold_value := some (8/10) },
   { name := "text_quality", category := cat3, severity := .high,
     weight := weight "text_quality" (12/10), threshold_value := some (7/10) },
   { name := "stopwords_detection", category := cat4, severity := .medium,
     weight := weight "stopwords_detection" (6/10), threshold_value := some (1/2) },
   { name := "spam_patterns", category := cat5, severity := .critical,
     weight := weight "spam_patterns" (15/10), threshold_value := some (3/10) },
   { name := "duplicate_content_detection", category := cat6, severity := .medium,
     weight := weight "duplicate_content_detection" (9/10), threshold_value := some (85/100) },
   { name := "tag_text_relevance", category := cat7, severity := .high,
     weight := weight "tag_text_relevance" (11/10), threshold_value := some (3/10) },
   { name := "semantic_relevance", category := cat8, severity := .high,
     weight := weight "semantic_relevance" (13/10), threshold_value := some (4/10) },
   { name := "domain_relevance", category := cat9, severity := .medium,
     weight := weight "domain_relevance" 1, threshold_value := some (1/2) },
   { name := "tag_specificity", category := cat10, severity := .medium,
     weight := weight "tag_specificity" (8/10), threshold_value := some (6/10) },
   { name := "context_coherence", category := cat11, severity := .medium,
     weight := weight "context_coherence" (9/10), threshold_value := some (1/10) }]

/-- One default threshold entry, with the current value resolved through the
Unified Config Service model `gv`. -/
def mkThreshold (gv : String → Option ℚ) (name : String)
    (fallback mn mx : ℚ) (affects : List String) : QualityThreshold :=
  { name := name, current_value := (gv name).getD fallback,
    default_value := fallback, min_value := mn, max_value := mx,
    affects_rules := affects }

/-- `DynamicRulesManager._create_default_thresholds`. -/
def create_default_thresholds (gv : String → Option ℚ) : List QualityThreshold :=
  [mkThreshold gv "approval_quality_score_threshold" 50 0 100 [],
   mkThreshold gv "semantic_relevance_threshold" (15/100) 0 1 ["semantic_relevance"],
   mkThreshold gv "domain_relevance_threshold" (1/10) 0 1 ["domain_relevance"],
   mkThreshold gv "tag_specificity_threshold" (2/10) 0 1 ["tag_specificity"],
   mkThreshold gv "context_coherence_threshold" (1/10) 0 1 ["context_coherence"],
   mkThreshold gv "tag_text_relevance_threshold" (3/10) 0 1 ["tag_text_relevance"],
   mkThreshold gv "spam_threshold" (3/10) 0 1 ["spam_patterns"],
   mkThreshold gv "stopword_threshold" (1/2) 0 1 ["stopwords_detection"],
   mkThreshold gv "language_consistency_threshold" (8/10) 0 1 ["language_consistency"],
   mkThreshold gv "min_tag_count" 1 0 50 ["tag_count_validation", "empty_tags"],
   mkThreshold gv "max_tag_count" 20 1 100 ["tag_count_validation"]]

/-- `DynamicRulesManager.__init__` over a fresh/empty database:
`_load_configurations` sees `rules_count == 0`, calls
`_create_default_rules` inside its `try`, catches the exception, and its
`except` fallback calls `_create_default_rules` again — whose exception
propagates out of `__init__` (thresholds are never created). -/
def init_fresh_config_store (gw gv : String → Option ℚ) :
    Except String ConfigState :=
  match create_default_rules gw with
  | .ok rules =>
    .ok { rules := rules, thresholds := create_default_thresholds gv, history := [] }
  | .error _ =>
    match create_default_rules gw with
    | .ok rules =>
      .ok { rules := rules, thresholds := create_default_thresholds gv, history := [] }
    | .error e => .error e

/-- The outcome of a mutating `DynamicRulesManager` call: the next state, the
boolean return value, and the subscriber notifications fired. -/
structure UpdateOutcome where
  state : ConfigState
  ok : Bool
  notified : List NotifyEvent
deriving DecidableEq

/-- In-place mutation of the threshold object looked up in the `thresholds`
dict (`self.thresholds[threshold_name].current_value = new_value`): replace
the first entry with that name — dict keys are unique, so the first match is
the dict entry. -/
def setThresholdValue : List QualityThreshold → String → ℚ → List QualityThreshold
  | [], _, _ => []
  | t :: ts, name, v =>
    if t.name = name then { t with current_value := v } :: ts
    else t :: setThresholdValue ts name v

/-- `DynamicRulesManager.update_threshold_value`. -/
def update_threshold_value (st : ConfigState) (threshold_name : String)
    (new_value : ℚ) (changed_by : String := "admin")
    (reason : String := "Manual update") : UpdateOutcome :=
  match st.thresholds.find? (fun t => t.name = threshold_name) with
  | none => { state := st, ok := false, notified := [] }
  | some threshold =>
    let old_value := threshold.current_value
    if old_value = new_value then
      { state := st, ok := true, notified := [] }
    else if ¬ (threshold.min_value ≤ new_value ∧ new_value ≤ threshold.max_value) then
      { state := st, ok := false, notified := [] }
    else
      let thresholds := setThresholdValue st.thresholds threshold_name new_value
      let rules := st.rules.map (fun r =>
        if threshold.affects_rules.contains r.name then
          { r with threshold_value := some new_value }
        else r)
      { state :=
          { rules := rules, thresholds := thresholds,
            history := st.history ++
              [{ change_type := "threshold", item_name := threshold_name,
                 field_name := "current_value", changed_by := changed_by,
                 reason := reason }] },
        ok := true,
        notified := [{ change_type := "threshold_update",
                       item_name := threshold_name,
                       old_value := old_value, new_value := new_value }] }

/-- Insert-or-replace by name (Python dict assignment `d[x.name] = x`):
replacement keeps the position, a new key is appended. -/
def upsertRule (rules : List RuleDefinition) (r : RuleDefinition) :
    List RuleDefinition :=
  if rules.any (fun x => x.name = r.name) then
    rules.map (fun x => if x.name = r.name then r else x)
  else rules ++ [r]

/-- Insert-or-replace a threshold by name. -/
def upsertThreshold (ts : List QualityThreshold) (t : QualityThreshold) :
    List QualityThreshold :=
  if ts.any (fun x => x.name = t.name) then
    ts.map (fun x => if x.name = t.name then t else x)
  else ts ++ [t]

/-- `DynamicRulesManager.import_configuration`: every rule and threshold of
the snapshot is stored as-is — no bounds validation — and a single history
row is recorded. -/
def import_configuration (st : ConfigState)
    (rules : List RuleDefinition) (thresholds : List QualityThreshold)
    (changed_by : String := "admin") : ConfigState × Bool :=
  let rules' := rules.foldl upsertRule st.rules
  let thresholds' := thresholds.foldl upsertThreshold st.thresholds
  ({ rules := rules', thresholds := thresholds',
     history := st.history ++
       [{ change_type := "system", item_name := "configuration",
          field_name := "import", changed_by := changed_by,
          reason := "Configuration import" }] },
   true)

/-- `DynamicRulesManager.calculate_weighted_score`: results whose
`check_name` is not a key of the rules dict contribute to neither the
numerator nor the denominator.  `rule_results` are `(check_name,
confidence_score)` pairs. -/
def calculate_weighted_score (rules : List RuleDefinition)
    (rule_results : List (String × ℚ)) : ℚ :=
  let acc := rule_results.foldl
    (fun (acc : ℚ × ℚ) result =>
      match rules.find? (fun rd => rd.name = result.1) with
      | some rd => (acc.1 + result.2 * rd.weight, acc.2 + rd.weight)
      | none => acc)
    (0, 0)
  if 0 < acc.2 then acc.1 / acc.2 else 0

/-! ## LLM invocation decision (api.py) -/

/-- `LLMInvocationSettings` (api.py).  `mode` carries the value of the
`str`-valued `LLMInvocationMode` enum ("binary" / "percentage" / "weighted" /
"range"); any other string is an unknown mode. -/
structure LLMInvocationSettings where
  mode : String := "binary"
  percentage_threshold : ℚ := 85
  weighted_threshold : ℚ := 8/10
  range_min_threshold : ℚ := 70
  range_max_threshold : ℚ := 80
  rule_weights : List (String × ℚ) := []
deriving DecidableEq

/-- `LLMInvocationDecision`, restricted to the decision and its confidence
(the reason string, mode echo and rules summary are presentation data). -/
structure LLMInvocationDecision where
  should_invoke_llm : Bool
  confidence : ℚ
deriving DecidableEq

/-- `passed_rules = sum(1 for r in results if r.status == FlagStatus.PASS)`. -/
def passed_rules (rs : List QualityCheckResult) : Nat :=
  rs.countP (fun r => decide (r.status = FlagStatus.pass))

/-- `(passed_rules / total_rules) * 100 if total_rules > 0 else 0`. -/
def pass_rate (rs : List QualityCheckResult) : ℚ :=
  if 0 < rs.length then ((passed_rules rs : ℚ) / (rs.length : ℚ)) * 100 else 0

/-- `settings.rule_weights.get(name, 1.0)`. -/
def ruleWeightOf (ws : List (String × ℚ)) (name : String) : ℚ :=
  ((ws.find? (fun p => p.1 = name)).map (fun p => p.2)).getD 1

/-- `evaluate_llm_invocation_decision` (api.py). -/
def evaluate_llm_invocation_decision (quality_results : List QualityCheckResult)
    (settings : LLMInvocationSettings) : LLMInvocationDecision :=
  let total_rules := quality_results.length
  let passed := passed_rules quality_results
  if settings.mode = "binary" then
    let should_invoke := passed = total_rules
    { should_invoke_llm := should_invoke,
      confidence := if should_invoke then 1 else 0 }
  else if settings.mode = "percentage" then
    let pass_percentage := pass_rate quality_results
    { should_invoke_llm := settings.percentage_threshold ≤ pass_percentage,
      confidence := min (pass_percentage / settings.percentage_threshold) 1 }
  else if settings.mode = "weighted" then
    let acc := quality_results.foldl
      (fun (acc : ℚ × ℚ) result =>
        let rule_weight := ruleWeightOf settings.rule_weights result.check_name
        (acc.1 + rule_weight,
         if result.status = FlagStatus.pass then acc.2 + rule_weight else acc.2))
      (0, 0)
    let weighted_score := if 0 < acc.1 then acc.2 / acc.1 else 0
    { should_invoke_llm := settings.weighted_threshold ≤ weighted_score,
      confidence := min (weighted_score / settings.weighted_threshold) 1 }
  else if settings.mode = "range" then
    if pass_rate quality_results < settings.range_min_threshold then
      { should_invoke_llm := false, confidence := 1 }
    else if settings.range_max_threshold < pass_rate quality_results then
      { should_invoke_llm := false, confidence := 1 }
    else
      { should_invoke_llm := true,
        confidence := min 1 ((pass_rate quality_results - settings.range_min_threshold)
          / ((settings.range_max_threshold - settings.range_min_threshold) / 2)) }
  else
    let should_invoke := passed = total_rules
    { should_invoke_llm := should_invoke,
      confidence := if should_invoke then 1 else 0 }

/-! ## Arithmetic and list helper lemmas -/

theorem frac_unit {a b : ℚ} (h0 : 0 ≤ a) (h1 : a ≤ b) : 0 ≤ a / b ∧ a / b ≤ 1 := by
  rcases lt_or_eq_of_le (le_trans h0 h1) with hb | hb
  · exact ⟨div_nonneg h0 (le_of_lt hb), (div_le_one hb).mpr h1⟩
  · have ha : a = 0 := le_antisymm (hb ▸ h1) h0
    simp [ha, ← hb]

theorem qlist_sum_nonneg {l : List ℚ} (h : ∀ x ∈ l, 0 ≤ x) : 0 ≤ l.sum := by
  induction l with
  | nil => simp
  | cons a t ih =>
    simp only [List.sum_cons]
    have := h a (List.mem_cons_self a t)
    have := ih (fun x hx => h x (List.mem_cons_of_mem a hx))
    linarith

theorem qlist_sum_le_len {l : List ℚ} (h : ∀ x ∈ l, x ≤ 1) : l.sum ≤ (l.length : ℚ) := by
  induction l with
  | nil => simp
  | cons a t ih =>
    simp only [List.sum_cons, List.length_cons]
    have := h a (List.mem_cons_self a t)
    have := ih (fun x hx => h x (List.mem_cons_of_mem a hx))
    push_cast
    linarith

theorem le_foldl_max {α} [LinearOrder α] (l : List α) (a : α) : a ≤ l.foldl max a := by
  induction l generalizing a with
  | nil => simp
  | cons x t ih => exact le_trans (le_max_left a x) (ih (max a x))

theorem foldl_max_le {α} [LinearOrder α] {l : List α} {a b : α} (ha : a ≤ b)
    (h : ∀ x ∈ l, x ≤ b) : l.foldl max a ≤ b := by
  induction l generalizing a with
  | nil => simpa
  | cons x t ih =>
    exact ih (max_le ha (h x (List.mem_cons_self x t)))
      (fun y hy => h y (List.mem_cons_of_mem x hy))

theorem qmean_unit {l : List ℚ} (h : ∀ x ∈ l, 0 ≤ x ∧ x ≤ 1) :
    0 ≤ qmean l ∧ qmean l ≤ 1 := by
  unfold qmean
  exact frac_unit (qlist_sum_nonneg (fun x hx => (h x hx).1))
    (qlist_sum_le_len (fun x hx => (h x hx).2))

theorem qmax_unit {l : List ℚ} (h : ∀ x ∈ l, 0 ≤ x ∧ x ≤ 1) :
    0 ≤ qmax l ∧ qmax l ≤ 1 := by
  unfold qmax
  exact ⟨le_foldl_max l 0, foldl_max_le (by norm_num) (fun x hx => (h x hx).2)⟩

theorem countP_frac_unit {α} (p : α → Bool) (l : List α) :
    0 ≤ ((l.countP p : ℚ) / (l.length : ℚ)) ∧ ((l.countP p : ℚ) / (l.length : ℚ)) ≤ 1 :=
  frac_unit (by positivity) (by exact_mod_cast List.countP_le_length p)

/-! ## Per-check shape lemmas: fixed check names -/

theorem check_empty_tags_name (c : Chunk) :
    (check_empty_tags c).check_name = "empty_tags" := by
  simp only [check_empty_tags]
  repeat' split
  all_goals rfl

theorem check_tag_count_name (T : Thresholds) (c : Chunk) :
    (check_tag_count T c).check_name = "tag_count_validation" := by
  simp only [check_tag_count]
  repeat' split
  all_goals rfl

theorem check_text_quality_name (T : Thresholds) (c : Chunk) :
    (check_text_quality T c).check_name = "text_quality" := by
  simp only [check_text_quality]
  repeat' split
  all_goals rfl

theorem check_generic_stopwords_name (T : Thresholds) (c : Chunk) :
    (check_generic_stopwords T c).check_name = "stopwords_detection" := by
  simp only [check_generic_stopwords]
  repeat' split
  all_goals rfl

theorem check_spam_patterns_name (oracle : EngineOracle) (c : Chunk) :
    (check_spam_patterns oracle c).check_name = "spam_patterns" := by
  simp only [check_spam_patterns]
  repeat' split
  all_goals rfl

theorem check_duplicate_content_name (md5hex : String → String) (T : Thresholds)
    (store : DupStore) (now : ℚ) (c : Chunk) :
    (check_duplicate_content md5hex T store now c).1.check_name
      = "duplicate_content_detection" := by
  simp only [check_duplicate_content]
  repeat' split
  all_goals rfl

theorem check_tag_text_relevance_name (T : Thresholds) (c : Chunk) :
    (check_tag_text_relevance T c).check_name = "tag_text_relevance" := by
  simp only [check_tag_text_relevance]
  repeat' split
  all_goals rfl

theorem check_semantic_relevance_name (T : Thresholds) (oracle : EngineOracle)
    (c : Chunk) :
    (check_semantic_relevance T oracle c).check_name = "semantic_relevance" := by
  simp only [check_semantic_relevance]
  repeat' split
  all_goals rfl

theorem check_domain_relevance_name (T : Thresholds) (c : Chunk) :
    (check_domain_relevance T c).check_name = "domain_relevance" := by
  simp only [check_domain_relevance]
  repeat' split
  all_goals rfl

theorem check_tag_specificity_name (T : Thresholds) (c : Chunk) :
    (check_tag_specificity T c).check_name = "tag_specificity" := by
  simp only [check_tag_specificity]
  repeat' split
  all_goals rfl

theorem check_context_coherence_name (T : Thresholds) (oracle : EngineOracle)
    (c : Chunk) :
    (check_context_coherence T oracle c).check_name = "context_coherence" := by
  simp only [check_context_coherence]
  repeat' split
  all_goals rfl

/-! ## Per-check confidence bounds -/

theorem check_empty_tags_conf (c : Chunk) :
    0 ≤ (check_empty_tags c).confidence_score ∧ (check_empty_tags c).confidence_score ≤ 1 := by
  simp only [check_empty_tags]
  repeat' split
  all_goals norm_num

theorem check_tag_count_conf (T : Thresholds) (c : Chunk) :
    0 ≤ (check_tag_count T c).confidence_score ∧ (check_tag_count T c).confidence_score ≤ 1 := by
  simp only [check_tag_count]
  repeat' split
  all_goals norm_num

theorem check_text_quality_conf (T : Thresholds) (c : Chunk) :
    0 ≤ (check_text_quality T c).confidence_score ∧ (check_text_quality T c).confidence_score ≤ 1 := by
  simp only [check_text_quality]
  repeat' split
  all_goals norm_num

theorem stopword_frac_unit (c : Chunk) :
    0 ≤ ((List.filter isStopwordMatch (c.tags.map fun tag => pyStrip (pyLower tag))).length : ℚ)
          / (c.tags.length : ℚ)
    ∧ ((List.filter isStopwordMatch (c.tags.map fun tag => pyStrip (pyLower tag))).length : ℚ)
          / (c.tags.length : ℚ) ≤ 1 := by
  have hle : (List.filter isStopwordMatch (c.tags.map fun tag => pyStrip (pyLower tag))).length
      ≤ c.tags.length := by
    calc (List.filter isStopwordMatch (c.tags.map fun tag => pyStrip (pyLower tag))).length
        ≤ (c.tags.map fun tag => pyStrip (pyLower tag)).length := List.length_filter_le _ _
      _ = c.tags.length := List.length_map _ _
  exact frac_unit (by positivity) (by exact_mod_cast hle)

theorem check_generic_stopwords_conf (T : Thresholds) (c : Chunk) :
    0 ≤ (check_generic_stopwords T c).confidence_score
    ∧ (check_generic_stopwords T c).confidence_score ≤ 1 := by
  obtain ⟨hf0, hf1⟩ := stopword_frac_unit c
  simp only [check_generic_stopwords]
  repeat' split
  · norm_num
  · exact ⟨le_trans (by norm_num) (le_max_left _ _), max_le (by norm_num) (by linarith)⟩
  · exact ⟨by linarith, by linarith⟩

theorem check_spam_patterns_conf (oracle : EngineOracle) (c : Chunk) :
    0 ≤ (check_spam_patterns oracle c).confidence_score
    ∧ (check_spam_patterns oracle c).confidence_score ≤ 1 := by
  simp only [check_spam_patterns]
  split
  · have hn : (0:ℚ) ≤ (oracle.spam_match_count : ℚ) := by positivity
    refine ⟨le_trans (by norm_num) (le_max_left _ _), max_le (by norm_num) ?_⟩
    nlinarith
  · split
    · rename_i hcond
      refine ⟨le_trans (by norm_num) (le_max_left _ _), max_le (by norm_num) ?_⟩
      linarith [hcond.2]
    · norm_num

theorem check_duplicate_content_conf (md5hex : String → String) (T : Thresholds)
    (store : DupStore) (now : ℚ) (c : Chunk) :
    0 ≤ (check_duplicate_content md5hex T store now c).1.confidence_score
    ∧ (check_duplicate_content md5hex T store now c).1.confidence_score ≤ 1 := by
  simp only [check_duplicate_content]
  repeat' split
  all_goals norm_num

theorem tagRelevanceCredit_unit (text_lower : String) (text_words : List String)
    (tag : String) :
    0 ≤ tagRelevanceCredit text_lower text_words tag
    ∧ tagRelevanceCredit text_lower text_words tag ≤ 1 := by
  simp only [tagRelevanceCredit]
  repeat' split
  all_goals norm_num

theorem credits_frac_unit (f : String → ℚ) (hf : ∀ t, 0 ≤ f t ∧ f t ≤ 1)
    (l : List String) :
    0 ≤ (l.map f).sum / (l.length : ℚ) ∧ (l.map f).sum / (l.length : ℚ) ≤ 1 := by
  have h0 : 0 ≤ (l.map f).sum := by
    refine qlist_sum_nonneg ?_
    intro x hx
    obtain ⟨t, _, rfl⟩ := List.mem_map.mp hx
    exact (hf t).1
  have h1 : (l.map f).sum ≤ ((l.map f).length : ℚ) := by
    refine qlist_sum_le_len ?_
    intro x hx
    obtain ⟨t, _, rfl⟩ := List.mem_map.mp hx
    exact (hf t).2
  rw [List.length_map] at h1
  exact frac_unit h0 h1

theorem check_tag_text_relevance_conf (T : Thresholds) (c : Chunk) :
    0 ≤ (check_tag_text_relevance T c).confidence_score
    ∧ (check_tag_text_relevance T c).confidence_score ≤ 1 := by
  obtain ⟨h0, h1⟩ := credits_frac_unit
    (tagRelevanceCredit (pyLower c.document_text) (findWords (pyLower c.document_text)))
    (tagRelevanceCredit_unit (pyLower c.document_text) (findWords (pyLower c.document_text)))
    c.tags
  simp only [check_tag_text_relevance]
  repeat' split
  · norm_num
  · exact ⟨h0, h1⟩
  · exact ⟨h0, h1⟩

theorem check_semantic_relevance_conf (T : Thresholds) (oracle : EngineOracle)
    (c : Chunk) (h : ∀ x ∈ oracle.semantic_sims.getD [], 0 ≤ x ∧ x ≤ 1) :
    0 ≤ (check_semantic_relevance T oracle c).confidence_score
    ∧ (check_semantic_relevance T oracle c).confidence_score ≤ 1 := by
  simp only [check_semantic_relevance]
  split
  · norm_num
  · split
    · norm_num
    · split
      · norm_num
      · rename_i sims heq
        rw [heq] at h
        simp only [Option.getD_some] at h
        obtain ⟨hm0, hm1⟩ := qmean_unit h
        obtain ⟨hx0, hx1⟩ := qmax_unit h
        split
        · exact ⟨by linarith, by linarith⟩
        · exact ⟨by linarith, by linarith⟩

theorem check_domain_relevance_conf (T : Thresholds) (c : Chunk) :
    0 ≤ (check_domain_relevance T c).confidence_score
    ∧ (check_domain_relevance T c).confidence_score ≤ 1 := by
  obtain ⟨h0, h1⟩ := countP_frac_unit tagMatchesDomain c.tags
  simp only [check_domain_relevance]
  repeat' split
  · norm_num
  · exact ⟨h0, h1⟩
  · exact ⟨h0, h1⟩

theorem tagSpecificityScore_unit (tag : String) :
    0 ≤ tagSpecificityScore tag ∧ tagSpecificityScore tag ≤ 1 := by
  simp only [tagSpecificityScore]
  repeat' split
  all_goals norm_num

theorem check_tag_specificity_conf (T : Thresholds) (c : Chunk) :
    0 ≤ (check_tag_specificity T c).confidence_score
    ∧ (check_tag_specificity T c).confidence_score ≤ 1 := by
  have hmean := qmean_unit (l := c.tags.map tagSpecificityScore) (by
    intro x hx
    obtain ⟨t, _, rfl⟩ := List.mem_map.mp hx
    exact tagSpecificityScore_unit t)
  simp only [check_tag_specificity]
  repeat' split
  · norm_num
  · exact hmean
  · exact hmean

theorem check_context_coherence_conf (T : Thresholds) (oracle : EngineOracle)
    (c : Chunk) (h : ∀ x ∈ oracle.coherence_sims.getD [], 0 ≤ x ∧ x ≤ 1) :
    0 ≤ (check_context_coherence T oracle c).confidence_score
    ∧ (check_context_coherence T oracle c).confidence_score ≤ 1 := by
  simp only [check_context_coherence]
  split
  · norm_num
  · split
    · norm_num
    · split
      · norm_num
      · rename_i sims heq
        rw [heq] at h
        simp only [Option.getD_some] at h
        obtain ⟨hm0, hm1⟩ := qmean_unit h
        split
        · split
          · exact ⟨hm0, hm1⟩
          · exact ⟨hm0, hm1⟩
        · split
          · norm_num
          · norm_num

/-! ## check_chunk: names, order, and confidence bounds (C2) -/

theorem dedup_by_name_eq_self (l : List QualityCheckResult) (seen : List String)
    (hd : (l.map (fun r => r.check_name)).Nodup)
    (hs : ∀ r ∈ l, r.check_name ∉ seen) :
    dedup_by_name l seen = l := by
  induction l generalizing seen with
  | nil => rfl
  | cons r t ih =>
    simp only [dedup_by_name]
    rw [if_neg (hs r (List.mem_cons_self r t))]
    have hd' : r.check_name ∉ t.map (fun r => r.check_name)
        ∧ (t.map (fun r => r.check_name)).Nodup := by
      rw [List.map_cons] at hd
      exact List.nodup_cons.mp hd
    congr 1
    refine ih _ hd'.2 ?_
    intro x hx hmem
    rcases List.mem_cons.mp hmem with h1 | h2
    · exact hd'.1 (h1 ▸ List.mem_map_of_mem (fun r => r.check_name) hx)
    · exact hs x (List.mem_cons_of_mem r hx) h2

/-- Well-formedness of the similarity oracle: cosine similarities of
(non-negative) TF-IDF vectors lie in [0, 1]. -/
def OracleWF (o : EngineOracle) : Prop :=
  (∀ x ∈ o.semantic_sims.getD [], 0 ≤ x ∧ x ≤ 1) ∧
  (∀ x ∈ o.coherence_sims.getD [], 0 ≤ x ∧ x ≤ 1)

/-- Claim C2: for every `(content, tags)` input, `RulesEngine.check_chunk`
returns exactly 11 results whose check names equal the fixed 11-name catalog
in catalog order, and every returned confidence score lies in [0, 1].
(The equality of the name list with the catalog list captures both the count
and the order; the oracle hypothesis records that cosine similarities lie in
[0, 1].) -/
theorem check_chunk_returns_catalog (md5hex : String → String) (T : Thresholds)
    (oracle : EngineOracle) (store : DupStore) (now : ℚ) (c : Chunk)
    (hwf : OracleWF oracle) :
    ((check_chunk md5hex T oracle store now c).1.map (fun r => r.check_name)
       = get_expected_check_names)
    ∧ ∀ r ∈ (check_chunk md5hex T oracle store now c).1,
        0 ≤ r.confidence_score ∧ r.confidence_score ≤ 1 := by
  have hnames :
      ([check_empty_tags c,
        check_tag_count T c,
        check_text_quality T c,
        check_generic_stopwords T c,
        check_spam_patterns oracle c,
        (check_duplicate_content md5hex T store now c).1,
        check_tag_text_relevance T c,
        check_semantic_relevance T oracle c,
        check_domain_relevance T c,
        check_tag_specificity T c,
        check_context_coherence T oracle c].map (fun r => r.check_name))
        = get_expected_check_names := by
    simp [get_expected_check_names, check_empty_tags_name, check_tag_count_name,
      check_text_quality_name, check_generic_stopwords_name, check_spam_patterns_name,
      check_duplicate_content_name, check_tag_text_relevance_name,
      check_semantic_relevance_name, check_domain_relevance_name,
      check_tag_specificity_name, check_context_coherence_name]
  have hnodup :
      ([check_empty_tags c,
        check_tag_count T c,
        check_text_quality T c,
        check_generic_stopwords T c,
        check_spam_patterns oracle c,
        (check_duplicate_content md5hex T store now c).1,
        check_tag_text_relevance T c,
        check_semantic_relevance T oracle c,
        check_domain_relevance T c,
        check_tag_specificity T c,
        check_context_coherence T oracle c].map (fun r => r.check_name)).Nodup := by
    rw [hnames]
    decide
  have key : (check_chunk md5hex T oracle store now c).1
      = [check_empty_tags c,
         check_tag_count T c,
         check_text_quality T c,
         check_generic_stopwords T c,
         check_spam_patterns oracle c,
         (check_duplicate_content md5hex T store now c).1,
         check_tag_text_relevance T c,
         check_semantic_relevance T oracle c,
         check_domain_relevance T c,
         check_tag_specificity T c,
         check_context_coherence T oracle c] := by
    simp only [check_chunk]
    rw [if_neg (by simp)]
    exact dedup_by_name_eq_self _ [] hnodup (by simp)
  rw [key]
  refine ⟨hnames, ?_⟩
  intro r hr
  simp only [List.mem_cons, List.not_mem_nil, or_false] at hr
  rcases hr with rfl | rfl | rfl | rfl | rfl | rfl | rfl | rfl | rfl | rfl | rfl
  · exact check_empty_tags_conf c
  · exact check_tag_count_conf T c
  · exact check_text_quality_conf T c
  · exact check_generic_stopwords_conf T c
  · exact check_spam_patterns_conf oracle c
  · exact check_duplicate_content_conf md5hex T store now c
  · exact check_tag_text_relevance_conf T c
  · exact check_semantic_relevance_conf T oracle c hwf.1
  · exact check_domain_relevance_conf T c
  · exact check_tag_specificity_conf T c
  · exact check_context_coherence_conf T oracle c hwf.2

/-! ## Claim C2 witness -/

/-- A concrete chunk for witness evaluation. -/
def c2_chunk : Chunk :=
  { document_text := "machine learning drives modern search ranking",
    tags := ["machine learning"], source_connector := "Custom" }

/-- A concrete, well-formed oracle for witness evaluation. -/
def c2_oracle : EngineOracle :=
  { spam_match_count := 0, semantic_sims := some [1/2], coherence_sims := some [] }

/-- Witness for claim C2 at a concrete chunk and oracle. -/
theorem check_chunk_returns_catalog_witness :
    (((check_chunk (fun s => s) {} c2_oracle [] 0 c2_chunk).1.map
        (fun r => r.check_name)) = get_expected_check_names)
    ∧ ∀ r ∈ (check_chunk (fun s => s) {} c2_oracle [] 0 c2_chunk).1,
        0 ≤ r.confidence_score ∧ r.confidence_score ≤ 1 :=
  check_chunk_returns_catalog (fun s => s) {} c2_oracle [] 0 c2_chunk
    (by
      constructor
      · intro x hx
        simp only [c2_oracle, Option.getD_some, List.mem_singleton] at hx
        subst hx
        norm_num
      · intro x hx
        simp [c2_oracle] at hx)

/-! ## Claim C9: binary mode and unknown-mode fallback -/

theorem passed_rules_eq_length_iff (rs : List QualityCheckResult) :
    passed_rules rs = rs.length ↔ ∀ r ∈ rs, r.status = FlagStatus.pass := by
  unfold passed_rules
  rw [List.countP_eq_length]
  simp

/-- Claim C9: in Binary mode — and in any unrecognised mode, which falls back
to Binary semantics — `should_invoke_llm` is true iff every result has status
Pass (`passed_count == total_count`), with confidence 1.0 when it invokes and
0.0 otherwise. -/
theorem binary_and_unknown_mode_decision (rs : List QualityCheckResult)
    (s : LLMInvocationSettings)
    (h : s.mode = "binary"
       ∨ (s.mode ≠ "percentage" ∧ s.mode ≠ "weighted" ∧ s.mode ≠ "range")) :
    ((evaluate_llm_invocation_decision rs s).should_invoke_llm = true
       ↔ ∀ r ∈ rs, r.status = FlagStatus.pass)
    ∧ (evaluate_llm_invocation_decision rs s).confidence
        = (if (evaluate_llm_invocation_decision rs s).should_invoke_llm then 1 else 0) := by
  have hbranch : evaluate_llm_invocation_decision rs s =
      { should_invoke_llm := passed_rules rs = rs.length,
        confidence := if passed_rules rs = rs.length then 1 else 0 } := by
    by_cases hb : s.mode = "binary"
    · simp [evaluate_llm_invocation_decision, hb]
    · rcases h with h | ⟨h1, h2, h3⟩
      · exact absurd h hb
      · simp [evaluate_llm_invocation_decision, hb, h1, h2, h3]
  rw [hbranch]
  constructor
  · simpa using passed_rules_eq_length_iff rs
  · by_cases hp : passed_rules rs = rs.length <;> simp [hp]

/-- A concrete all-pass result list. -/
def c9_results : List QualityCheckResult :=
  [{ check_name := "empty_tags", status := .pass, confidence_score := 1 },
   { check_name := "text_quality", status := .pass, confidence_score := 1 }]

/-- Witness for claim C9 in binary mode at a concrete result list. -/
theorem binary_and_unknown_mode_decision_witness :
    ((evaluate_llm_invocation_decision c9_results { mode := "binary" }).should_invoke_llm = true
       ↔ ∀ r ∈ c9_results, r.status = FlagStatus.pass)
    ∧ (evaluate_llm_invocation_decision c9_results { mode := "binary" }).confidence
        = (if (evaluate_llm_invocation_decision c9_results { mode := "binary" }).should_invoke_llm
           then 1 else 0) :=
  binary_and_unknown_mode_decision c9_results { mode := "binary" } (Or.inl rfl)

/-! ## Claim C1: Range-mode boundary semantics -/

/-- Ten results of which exactly 7 pass: pass rate exactly 70%. -/
def c1_boundary_results : List QualityCheckResult :=
  List.replicate 7 { check_name := "r", status := .pass, confidence_score := 1 }
  ++ List.replicate 3 { check_name := "r", status := .fail, confidence_score := 0 }

/-- Ten results of which exactly 8 pass: pass rate exactly 80%. -/
def c1_max_boundary_results : List QualityCheckResult :=
  List.replicate 8 { check_name := "r", status := .pass, confidence_score := 1 }
  ++ List.replicate 2 { check_name := "r", status := .fail, confidence_score := 0 }

/-- Range-mode settings with the default gray zone 70–80. -/
def c1_range_settings : LLMInvocationSettings := { mode := "range" }

/-- Claim C1 counterexample: with `range_min_threshold = 70` and
`range_max_threshold = 80`, a pass rate exactly equal to either threshold
makes the code take the gray-zone branch and set `should_invoke_llm = true`,
where the claim demands `false` at both boundaries. -/
theorem range_mode_boundary_counterexample :
    pass_rate c1_boundary_results = 70
    ∧ (evaluate_llm_invocation_decision c1_boundary_results
        c1_range_settings).should_invoke_llm = true
    ∧ pass_rate c1_max_boundary_results = 80
    ∧ (evaluate_llm_invocation_decision c1_max_boundary_results
        c1_range_settings).should_invoke_llm = true := by
  have h7 : passed_rules c1_boundary_results = 7 := by decide
  have h8 : passed_rules c1_max_boundary_results = 8 := by decide
  have hl : c1_boundary_results.length = 10 := by decide
  have hl' : c1_max_boundary_results.length = 10 := by decide
  have hpr : pass_rate c1_boundary_results = 70 := by
    simp only [pass_rate, h7, hl]
    norm_num
  have hpr' : pass_rate c1_max_boundary_results = 80 := by
    simp only [pass_rate, h8, hl']
    norm_num
  refine ⟨hpr, ?_, hpr', ?_⟩
  · unfold evaluate_llm_invocation_decision
    rw [if_neg (by decide), if_neg (by decide), if_neg (by decide),
      if_pos (show c1_range_settings.mode = "range" by decide),
      if_neg (by rw [hpr]; norm_num [c1_range_settings]),
      if_neg (by rw [hpr]; norm_num [c1_range_settings])]
  · unfold evaluate_llm_invocation_decision
    rw [if_neg (by decide), if_neg (by decide), if_neg (by decide),
      if_pos (show c1_range_settings.mode = "range" by decide),
      if_neg (by rw [hpr']; norm_num [c1_range_settings]),
      if_neg (by rw [hpr']; norm_num [c1_range_settings])]

/-- Claim C1 amended: in Range mode the gray zone is inclusive of both
boundaries — `should_invoke_llm` is true iff
`range_min_threshold ≤ pass_rate ≤ range_max_threshold` (in particular it is
true at a pass rate exactly equal to either threshold, and false strictly
below the minimum or strictly above the maximum). -/
theorem range_mode_gray_zone_inclusive (rs : List QualityCheckResult)
    (s : LLMInvocationSettings) (h : s.mode = "range") :
    (evaluate_llm_invocation_decision rs s).should_invoke_llm = true
      ↔ (s.range_min_threshold ≤ pass_rate rs
         ∧ pass_rate rs ≤ s.range_max_threshold) := by
  unfold evaluate_llm_invocation_decision
  rw [h]
  rw [if_neg (by decide), if_neg (by decide), if_neg (by decide), if_pos rfl]
  split_ifs with h1 h2
  · constructor
    · intro hfalse
      exact absurd hfalse (by simp)
    · intro hc
      exact absurd hc.1 (not_le.mpr h1)
  · constructor
    · intro hfalse
      exact absurd hfalse (by simp)
    · intro hc
      exact absurd hc.2 (not_le.mpr h2)
  · simp only [true_iff]
    exact ⟨not_lt.mp h1, not_lt.mp h2⟩

/-- Witness for the amended claim C1 at a concrete boundary input. -/
theorem range_mode_gray_zone_inclusive_witness :
    (evaluate_llm_invocation_decision c1_boundary_results
       c1_range_settings).should_invoke_llm = true
      ↔ (c1_range_settings.range_min_threshold ≤ pass_rate c1_boundary_results
         ∧ pass_rate c1_boundary_results ≤ c1_range_settings.range_max_threshold) :=
  range_mode_gray_zone_inclusive c1_boundary_results c1_range_settings rfl

/-! ## Claim C5: ConfigStore initialisation over a fresh database -/

/-- Claim C5 (refuted — code bug): initialising the store over a fresh/empty
database does not succeed: building the `default_rules` list evaluates
`RuleCategory.SEMANTIC_VALIDATION`, which is not a member of the enum
(`SEMANTIC_ANALYSIS` is), so `_create_default_rules` raises `AttributeError`;
`_load_configurations` catches the first raise and its fallback path raises
again, so `__init__` propagates the error and no default rule is created —
for any resolution of the Unified Config Service weights and values. -/
theorem fresh_init_raises_attribute_error (gw gv : String → Option ℚ) :
    init_fresh_config_store gw gv
      = Except.error
          "AttributeError: type object RuleCategory has no attribute SEMANTIC_VALIDATION" :=
  rfl

/-! ## Claim C3: the weighted-score aggregator -/

/-- A single-rule configuration for the counterexample. -/
def c3_rules : List RuleDefinition :=
  [{ name := "empty_tags", category := .tag_validation, severity := .high, weight := 1 }]

/-- Two results, one of which has no entry in the rule map. -/
def c3_results : List (String × ℚ) := [("empty_tags", 1), ("unknown_check", 0)]

/-- Modelled from the spec wording of §4.6, for refinement comparison: the
weighted sum over all results, with weight 1.0 defaulted for a check name
absent from the map, and 0.0 on zero total weight. -/
def spec_weighted_score (rules : List RuleDefinition)
    (rule_results : List (String × ℚ)) : ℚ :=
  let weightOf := fun (name : String) =>
    (((rules.find? (fun rd => rd.name = name)).map (fun rd => rd.weight)).getD 1)
  let total_weight := (rule_results.map (fun r => weightOf r.1)).sum
  if total_weight = 0 then 0
  else (rule_results.map (fun r => r.2 * weightOf r.1)).sum / total_weight

/-- Claim C3 counterexample: `calculate_weighted_score` skips the result with
the unknown check name entirely (score 1), while the claim's formula gives it
default weight 1.0 (score 1/2). -/
theorem calculate_weighted_score_counterexample :
    calculate_weighted_score c3_rules c3_results = 1
    ∧ spec_weighted_score c3_rules c3_results = 1/2
    ∧ calculate_weighted_score c3_rules c3_results
        ≠ spec_weighted_score c3_rules c3_results := by
  have e1 : c3_rules.find? (fun rd => rd.name = "empty_tags")
      = some { name := "empty_tags", category := .tag_validation,
               severity := .high, weight := 1 } := rfl
  have e2 : c3_rules.find? (fun rd => rd.name = "unknown_check") = none := rfl
  have h1 : calculate_weighted_score c3_rules c3_results = 1 := by
    norm_num [calculate_weighted_score, c3_results, e1, e2]
  have h2 : spec_weighted_score c3_rules c3_results = 1/2 := by
    norm_num [spec_weighted_score, c3_results, e1, e2]
  refine ⟨h1, h2, ?_⟩
  rw [h1, h2]
  norm_num

/-- The weight of a rule present in the map (0 as a dummy for absent names;
only applied to names that pass the `isSome` filter). -/
def lookupRuleWeight (rules : List RuleDefinition) (name : String) : ℚ :=
  ((rules.find? (fun rd => rd.name = name)).map (fun rd => rd.weight)).getD 0

theorem calculate_weighted_score_foldl (rules : List RuleDefinition)
    (results : List (String × ℚ)) (a b : ℚ) :
    results.foldl
      (fun (acc : ℚ × ℚ) result =>
        match rules.find? (fun rd => rd.name = result.1) with
        | some rd => (acc.1 + result.2 * rd.weight, acc.2 + rd.weight)
        | none => acc)
      (a, b)
    = (a + ((results.filter
          (fun r => (rules.find? (fun rd => rd.name = r.1)).isSome)).map
            (fun r => r.2 * lookupRuleWeight rules r.1)).sum,
       b + ((results.filter
          (fun r => (rules.find? (fun rd => rd.name = r.1)).isSome)).map
            (fun r => lookupRuleWeight rules r.1)).sum) := by
  induction results generalizing a b with
  | nil => simp
  | cons r t ih =>
    simp only [List.foldl_cons, List.filter_cons]
    cases hf : rules.find? (fun rd => rd.name = r.1) with
    | none =>
      simp only [hf, Option.isSome_none, Bool.false_eq_true, if_false]
      exact ih a b
    | some rd =>
      simp only [hf, Option.isSome_some, if_true, List.map_cons, List.sum_cons]
      rw [ih]
      simp only [Prod.mk.injEq]
      constructor <;> · simp [lookupRuleWeight, hf]; ring

/-- Claim C3 amended: the weighted score is
`Σ(confidence_i × weight_i) / Σ(weight_i)` computed only over the results
whose `check_name` has an entry in the rule map — results with no entry are
skipped entirely rather than defaulted to weight 1.0 — and it is 0.0 when the
total weight over the included results is zero. -/
theorem calculate_weighted_score_eq_filtered (rules : List RuleDefinition)
    (results : List (String × ℚ)) :
    calculate_weighted_score rules results
      = (if 0 < ((results.filter
            (fun r => (rules.find? (fun rd => rd.name = r.1)).isSome)).map
              (fun r => lookupRuleWeight rules r.1)).sum
         then ((results.filter
            (fun r => (rules.find? (fun rd => rd.name = r.1)).isSome)).map
              (fun r => r.2 * lookupRuleWeight rules r.1)).sum
            / ((results.filter
            (fun r => (rules.find? (fun rd => rd.name = r.1)).isSome)).map
              (fun r => lookupRuleWeight rules r.1)).sum
         else 0) := by
  unfold calculate_weighted_score
  rw [calculate_weighted_score_foldl]
  simp

/-! ## Claims C7 and C10: threshold update rejection and no-op -/

/-- Claim C7: for a stored threshold satisfying the data-model invariant,
updating it to a value outside `[min_value, max_value]` returns false and
changes nothing: the state (thresholds, rules, history) is returned untouched
and no subscriber notification fires. -/
theorem update_threshold_out_of_bounds_rejected (st : ConfigState)
    (name : String) (v : ℚ) (cb rsn : String) (t : QualityThreshold)
    (hf : st.thresholds.find? (fun x => x.name = name) = some t)
    (hcur : t.min_value ≤ t.current_value ∧ t.current_value ≤ t.max_value)
    (hv : ¬ (t.min_value ≤ v ∧ v ≤ t.max_value)) :
    update_threshold_value st name v cb rsn
      = { state := st, ok := false, notified := [] } := by
  have hne : ¬ (t.current_value = v) := fun he => hv (he ▸ hcur)
  simp only [update_threshold_value, hf]
  rw [if_neg hne, if_pos hv]

/-- The stored default of the semantic-relevance threshold (entry of
`create_default_thresholds` with the Unified Config Service unavailable). -/
def semantic_threshold_default : QualityThreshold :=
  { name := "semantic_relevance_threshold", current_value := 15/100,
    default_value := 15/100, min_value := 0, max_value := 1,
    affects_rules := ["semantic_relevance"] }

/-- The default thresholds with the Unified Config Service unavailable. -/
def default_thresholds : List QualityThreshold :=
  create_default_thresholds (fun _ => none)

/-- A concrete store state over the default thresholds. -/
def c7_state : ConfigState :=
  { rules := [], thresholds := default_thresholds, history := [] }

/-- Witness for claim C7 at a concrete out-of-bounds update. -/
theorem update_threshold_out_of_bounds_rejected_witness :
    update_threshold_value c7_state "semantic_relevance_threshold" 5 "admin" "test"
      = { state := c7_state, ok := false, notified := [] } :=
  update_threshold_out_of_bounds_rejected c7_state "semantic_relevance_threshold"
    5 "admin" "test" semantic_threshold_default rfl
    (by norm_num [semantic_threshold_default])
    (by norm_num [semantic_threshold_default])

/-- Claim C10: updating a stored threshold to a value equal to its current
value returns true but appends no history entry, fires no notification, and
leaves the whole state unchanged. -/
theorem update_threshold_noop (st : ConfigState) (name : String) (v : ℚ)
    (cb rsn : String) (t : QualityThreshold)
    (hf : st.thresholds.find? (fun x => x.name = name) = some t)
    (hv : t.current_value = v) :
    update_threshold_value st name v cb rsn
      = { state := st, ok := true, notified := [] } := by
  simp only [update_threshold_value, hf]
  rw [if_pos hv]

/-- Witness for claim C10 at a concrete no-op update. -/
theorem update_threshold_noop_witness :
    update_threshold_value c7_state "semantic_relevance_threshold" (15/100) "admin" "test"
      = { state := c7_state, ok := true, notified := [] } :=
  update_threshold_noop c7_state "semantic_relevance_threshold" (15/100) "admin" "test"
    semantic_threshold_default rfl (by norm_num [semantic_threshold_default])

/-! ## Claim C6: the threshold bounds invariant -/

/-- The data-model invariant `min_value ≤ current_value ≤ max_value`, as a
decidable check over all stored thresholds. -/
def thresholdsWF (ts : List QualityThreshold) : Bool :=
  ts.all (fun t => decide (t.min_value ≤ t.current_value)
                 && decide (t.current_value ≤ t.max_value))

/-- An imported snapshot entry whose current value lies outside its own
bounds (`import_configuration` performs no validation). -/
def bad_imported_threshold : QualityThreshold :=
  { name := "semantic_relevance_threshold", current_value := 2,
    default_value := 0, min_value := 0, max_value := 1,
    affects_rules := ["semantic_relevance"] }

/-- A well-formed starting state for the import counterexample. -/
def c6_start : ConfigState := { rules := [], thresholds := [], history := [] }

/-- Claim C6 counterexample: `import_configuration` accepts a snapshot whose
threshold violates `min_value ≤ current_value ≤ max_value`, reports success,
and leaves the store with a threshold breaking the invariant — so the
invariant is not preserved by every operation. -/
theorem import_configuration_breaks_invariant :
    thresholdsWF c6_start.thresholds = true
    ∧ (import_configuration c6_start [] [bad_imported_threshold]).2 = true
    ∧ thresholdsWF
        (import_configuration c6_start [] [bad_imported_threshold]).1.thresholds
        = false := by
  refine ⟨rfl, rfl, ?_⟩
  decide

theorem setThresholdValue_WF (ts : List QualityThreshold) (name : String)
    (v : ℚ) (t : QualityThreshold)
    (hwf : thresholdsWF ts = true)
    (hf : ts.find? (fun x => x.name = name) = some t)
    (hb : t.min_value ≤ v ∧ v ≤ t.max_value) :
    thresholdsWF (setThresholdValue ts name v) = true := by
  induction ts with
  | nil => rfl
  | cons x xs ih =>
    simp only [thresholdsWF, List.all_cons, Bool.and_eq_true] at hwf
    by_cases hx : x.name = name
    · have ht : t = x := by
        rw [List.find?_cons_of_pos xs (by simp [hx])] at hf
        exact (Option.some.inj hf).symm
      simp only [setThresholdValue, if_pos hx]
      simp only [thresholdsWF, List.all_cons, Bool.and_eq_true]
      subst ht
      exact ⟨by simp [hb.1, hb.2], hwf.2⟩
    · rw [List.find?_cons_of_neg xs (by simp [hx])] at hf
      simp only [setThresholdValue, if_neg hx]
      simp only [thresholdsWF, List.all_cons, Bool.and_eq_true]
      exact ⟨hwf.1, ih hwf.2 hf⟩

/-- Claim C6 amended: the bounds invariant holds for the default thresholds
(Unified Config Service unavailable) and is preserved by
`update_threshold_value` — and hence by bulk updates and resets, which go
through it — but it is not preserved by `import_configuration`, which stores
imported thresholds without any bounds validation. -/
theorem threshold_invariant_defaults_and_update :
    thresholdsWF default_thresholds = true
    ∧ ∀ (st : ConfigState) (name : String) (v : ℚ) (cb rsn : String),
        thresholdsWF st.thresholds = true →
        thresholdsWF (update_threshold_value st name v cb rsn).state.thresholds
          = true := by
  constructor
  · norm_num [thresholdsWF, default_thresholds, create_default_thresholds, mkThreshold]
  · intro st name v cb rsn hwf
    cases hf : st.thresholds.find? (fun t => t.name = name) with
    | none =>
      simp only [update_threshold_value, hf]
      exact hwf
    | some t =>
      simp only [update_threshold_value, hf]
      split
      · exact hwf
      · split
        · exact hwf
        · rename_i hbound
          exact setThresholdValue_WF st.thresholds name v t hwf hf (not_not.mp hbound)

/-- Witness for the amended claim C6 at a concrete in-bounds update over the
default thresholds. -/
theorem threshold_invariant_defaults_and_update_witness :
    thresholdsWF
      ((update_threshold_value c7_state "semantic_relevance_threshold" (1/2)
          "admin" "test").state.thresholds) = true :=
  threshold_invariant_defaults_and_update.2 c7_state "semantic_relevance_threshold"
    (1/2) "admin" "test" threshold_invariant_defaults_and_update.1

/-! ## Claim C8: degenerate input to the semantic-relevance check -/

/-- Claim C8: when the semantic-relevance check receives degenerate input —
content whose preprocessed form is empty, or tags that all preprocess to
empty — it returns a result (the `except` path is not taken) whose reported
semantic score is exactly 0.0: the Fail result with `semantic_score = 0.0`
in its metadata (and confidence score 0.1). -/
theorem semantic_degenerate_returns_zero_score (T : Thresholds)
    (oracle : EngineOracle) (c : Chunk) (htags : c.tags ≠ [])
    (hdeg : preprocess_text c.document_text = ""
          ∨ ∀ t ∈ c.tags, preprocess_text t = "") :
    check_semantic_relevance T oracle c
      = { check_name := "semantic_relevance", status := FlagStatus.fail,
          confidence_score := 1/10, metadata_score := some 0 } := by
  have hcond : pyStrip (preprocess_text c.document_text) = ""
      ∨ ¬ ((c.tags.map preprocess_text).any fun t => pyStrip t ≠ "") := by
    rcases hdeg with h | h
    · left
      rw [h]
      rfl
    · right
      intro hany
      rcases List.any_eq_true.mp hany with ⟨x, hx, hp⟩
      obtain ⟨t0, ht0, rfl⟩ := List.mem_map.mp hx
      rw [h t0 ht0, show pyStrip "" = "" from rfl] at hp
      simp at hp
  simp only [check_semantic_relevance]
  rw [if_neg htags, if_pos hcond]

/-- Witness for claim C8 at a concrete punctuation-only content. -/
theorem semantic_degenerate_returns_zero_score_witness :
    check_semantic_relevance {} c2_oracle
        { document_text := "!!!", tags := ["tag"], source_connector := "Custom" }
      = { check_name := "semantic_relevance", status := FlagStatus.fail,
          confidence_score := 1/10, metadata_score := some 0 } :=
  semantic_degenerate_returns_zero_score {} c2_oracle
    { document_text := "!!!", tags := ["tag"], source_connector := "Custom" }
    (by decide) (Or.inl (by decide))

/-! ## Claim C4: duplicate-content detection across two submissions -/

/-- Shared evaluation lemma: starting from an empty hash store, the second
in-window submission of the same content sees exactly one prior occurrence,
so its duplicate check fails iff `max_duplicate_content_per_hour ≤ 1`. -/
theorem second_submission_status (md5hex : String → String) (T : Thresholds)
    (c : Chunk) (t0 t1 : ℚ) (hwin : t1 - 24 < t0) :
    (check_duplicate_content md5hex T
        ((check_duplicate_content md5hex T [] t0 c).2) t1 c).1.status
      = (if T.max_duplicate_content_per_hour ≤ 1 then FlagStatus.fail
         else FlagStatus.pass) := by
  have h1 : (check_duplicate_content md5hex T [] t0 c).2
      = [(hash_content md5hex c.document_text, [(t0, c.source_connector)])] := by
    simp [check_duplicate_content, cleanDupStore, dupStoreAppend]
  rw [h1]
  have h2 : cleanDupStore
      [(hash_content md5hex c.document_text, [(t0, c.source_connector)])] (t1 - 24)
      = [(hash_content md5hex c.document_text, [(t0, c.source_connector)])] := by
    simp [cleanDupStore, hwin]
  simp only [check_duplicate_content, h2]
  have h3 : List.find? (fun e => e.1 = hash_content md5hex c.document_text)
      [(hash_content md5hex c.document_text, [(t0, c.source_connector)])]
      = some (hash_content md5hex c.document_text, [(t0, c.source_connector)]) := by
    simp
  simp only [h3, List.length_cons, List.length_nil, Nat.zero_add, Nat.cast_one]
  split_ifs with h
  · rfl
  · rfl

/-- A concrete chunk submitted twice. -/
def dup_chunk : Chunk :=
  { document_text := "quarterly revenue grew steadily across all regions",
    tags := ["revenue"], source_connector := "Custom" }

/-- Claim C4 counterexample: with the default
`max_duplicate_content_per_hour = 5`, the second in-window submission of
identical content sees one prior occurrence (1 < 5) and its
`duplicate_content_detection` result is Pass, not Fail. -/
theorem duplicate_second_submission_counterexample :
    (check_duplicate_content (fun s => s) {}
        ((check_duplicate_content (fun s => s) {} [] 0 dup_chunk).2)
        1 dup_chunk).1.status = FlagStatus.pass := by
  rw [second_submission_status (fun s => s) {} dup_chunk 0 1 (by norm_num)]
  rw [if_neg (by norm_num [show ({} : Thresholds).max_duplicate_content_per_hour = 5 from rfl])]

/-- Claim C4 amended: the second in-window submission of identically-hashed
content is flagged iff its one prior occurrence already reaches
`max_duplicate_content_per_hour`, i.e. iff that threshold is ≤ 1; under the
default threshold 5 it passes (only the sixth identical in-window submission
is the first to be flagged). -/
theorem duplicate_second_submission_iff (md5hex : String → String)
    (T : Thresholds) (c : Chunk) (t0 t1 : ℚ) (hwin : t1 - 24 < t0) :
    ((check_duplicate_content md5hex T
        ((check_duplicate_content md5hex T [] t0 c).2) t1 c).1.status
        = FlagStatus.fail)
      ↔ T.max_duplicate_content_per_hour ≤ 1 := by
  rw [second_submission_status md5hex T c t0 t1 hwin]
  split_ifs with h
  · simp [h]
  · simp [h]

/-- Witness for the amended claim C4 with threshold 1, where the second
submission is flagged. -/
theorem duplicate_second_submission_iff_witness :
    ((check_duplicate_content (fun s => s) { max_duplicate_content_per_hour := 1 }
        ((check_duplicate_content (fun s => s) { max_duplicate_content_per_hour := 1 }
            [] 0 dup_chunk).2) 1 dup_chunk).1.status = FlagStatus.fail)
      ↔ ({ max_duplicate_content_per_hour := 1 }
          : Thresholds).max_duplicate_content_per_hour ≤ 1 :=
  duplicate_second_submission_iff (fun s => s)
    { max_duplicate_content_per_hour := 1 } dup_chunk 0 1 (by norm_num)
